import Mathlib

/-!
Shallow embedding of `src/redisboard/admin.py` (django-redisboard):
the `inspect` database-summary/scan policy, the `inspect_key` key-detail
view, and the permission/connection-lifecycle `wrapper` produced by
`RedisServerAdmin.get_urls`.

External collaborators (the redis client behind `server.connection`, the
`server.display` helpers, the `REDISBOARD_SCAN_COUNT` setting and the
`DBInfo` dataclass from modules not present in the source tree) are taken
as parameters or modelled from the spec, as noted on each definition.
-/

namespace Redisboard

/-- Modelled from the spec: `ScanPage` — the result of one incremental scan
step of the external Keyspace Scanner (`server.display.scan`) and also the
value page returned by `server.display.value` (both are absent from the
source tree; the spec gives `{keys, next_cursor, count_requested}` and the
code reads `.count` on the value page). Keys are byte strings, modelled as
lists of naturals. -/
structure ScanPage where
  keys : List (List Nat)
  next_cursor : Nat
  count : Nat
deriving DecidableEq, Repr

/-- The state of the `scan` field of a `DBInfo`: the dataclass default
`False`, the flag `True` set at construction (`scan=True`), or the
`ScanPage` that `inspect` assigns over the flag
(`dbinfo.scan = server.display.scan(...)`). -/
inductive ScanField where
  | off
  | on
  | page (p : ScanPage)
deriving DecidableEq, Repr

/-- Python truthiness of the `scan` field, as tested by `if dbinfo.scan:`:
`False` is falsy; `True` and any `ScanPage` object are truthy. -/
def ScanField.isTruthy : ScanField → Bool
  | .off => false
  | _ => true

/-- Modelled from the spec: `DBInfo` (the `DatabaseSummary` struct from
`redisboard.structs`, absent from the source tree):
`{id, key_count, scan_enabled, cursor, page}`. `keys` is the `'keys'` entry
of the details dict passed at construction; `scan` defaults to disabled and
`cursor` defaults to unset, matching the two-argument construction
`DBInfo(*item)`. -/
structure DBInfo where
  id : Nat
  keys : Nat
  scan : ScanField := .off
  cursor : Option Nat := none
deriving DecidableEq, Repr

/-- Membership plus indexing into `stats.databases` for an explicit db id:
`db in stats.databases` followed by `stats.databases[db]`. The dict of
per-database details is modelled as an association list from db id to the
`'keys'` count (the only detail field `inspect` reads). -/
def dbLookup (sdbs : List (Nat × Nat)) (d : Nat) : Option Nat :=
  (sdbs.find? (fun it => it.1 == d)).map (fun it => it.2)

/-- `total_keys = sum(details.get('keys', 0) for details in stats.databases.values())`. -/
def totalKeys (sdbs : List (Nat × Nat)) : Nat :=
  (sdbs.map (fun it => it.2)).sum

/-- The template context fields of the `inspect` view that the policy
computes: the `'databases'`, `'active'` and `'stats'` entries (the remaining
entries of the rendered context are constants or pass-throughs of the
request). -/
structure InspectContext where
  databases : List DBInfo
  active : Option DBInfo
  stats : Option (List (Nat × Nat))
deriving DecidableEq, Repr

/-- Embeds `RedisServerAdmin.inspect` (admin.py lines 188-223).

Parameters standing for externals: `threshold` is the
`REDISBOARD_SCAN_COUNT` setting; `scanFn` is `server.display.scan`, taking
the database id, the cursor and the forwarded query-string dict
`request.GET.dict()`; `stats` is `server.stats`, `none` when falsy
(unavailable), otherwise the per-database key-count map.

The view always returns a rendered context (it is total): with `stats`
unavailable it renders an empty database list and no active database. -/
def inspect (threshold : Nat) (scanFn : Nat → Nat → List (String × String) → ScanPage)
    (stats : Option (List (Nat × Nat))) (db : Option Nat) (cursor : Nat)
    (GET : List (String × String)) : InspectContext :=
  match stats with
  | none => { databases := [], active := none, stats := none }
  | some sdbs =>
    let pre : List DBInfo :=
      match db with
      | some d =>
        match dbLookup sdbs d with
        | some k => [{ id := d, keys := k, scan := .on }]
        | none => [{ id := d, keys := 0, scan := .on }]
      | none =>
        if totalKeys sdbs < threshold then
          sdbs.map (fun it => { id := it.1, keys := it.2, scan := .on })
        else
          sdbs.map (fun it => { id := it.1, keys := it.2 })
    let databases := pre.map (fun i =>
      if i.scan.isTruthy then
        { i with scan := .page (scanFn i.id cursor GET), cursor := some cursor }
      else i)
    { databases := databases
      active := match db with
        | some _ => databases.head?
        | none => none
      stats := some sdbs }

/-- The claim-relevant entries of the rendered `inspect_key` context:
`'stats'`, `'key'` (decoded), `'count'`, `'scan'`, and the `'db'` sub-dict
`{id, cursor}` (the remaining entries are constants or derived encodings of
the same key). `α` is the (external) result type of `server.display.keys`. -/
structure KeyContext (α : Type) where
  stats : α
  key : String
  count : Nat
  scan : ScanPage
  dbId : Nat
  dbCursor : Nat
deriving DecidableEq, Repr

/-- The result of the `inspect_key` view: either the 404 response
`HttpResponseNotFound('Key is gone.')` or a rendered key-detail context. -/
inductive KeyResult (α : Type) where
  | notFound (msg : String)
  | rendered (ctx : KeyContext α)
deriving DecidableEq, Repr

/-- Embeds `RedisServerAdmin.inspect_key` (admin.py lines 161-186).

Parameters standing for externals: `existsFn` is
`server.connection.exists`, `keysFn` is `server.display.keys`, `valueFn`
is `server.display.value` (db, key, cursor, count), `decodeKey` is
`display.decoder.key`. The key has already been percent-unquoted to bytes
(`unquote_to_bytes`). If the existence check fails the view returns the
404 response at once and builds no context; otherwise the context carries
`'count': scan.count + count`. -/
def inspect_key (α : Type) (existsFn : List Nat → Bool)
    (keysFn : Nat → List (List Nat) → α)
    (valueFn : Nat → List Nat → Nat → Nat → ScanPage)
    (decodeKey : List Nat → String)
    (db : Nat) (key : List Nat) (cursor : Nat := 0) (count : Nat := 0) :
    KeyResult α :=
  if !existsFn key then
    .notFound "Key is gone."
  else
    let stats := keysFn db [key]
    let scan := valueFn db key cursor count
    .rendered { stats := stats, key := decodeKey key, count := scan.count + count,
                scan := scan, dbId := db, dbCursor := cursor }

/-- Events of a single wrapped inspection request, in the order they occur:
connection opened (`connection = server.connection`), wrapped view body
executed, post-render callback registered, response body rendered,
connection closed, or a cleanup callback raising an exception. -/
inductive TraceEvent where
  | connOpened
  | viewRun
  | callbackRegistered
  | bodyRendered
  | connClosed
  | cleanupFailed (msg : String)
deriving DecidableEq, Repr

/-- Run-time values that reach the cleanup callback in the wrapper: the
live connection object, or the bound method `connection.close`. -/
inductive ConnVal where
  | connObj
  | boundClose
deriving DecidableEq, Repr

/-- Python attribute lookup of `.close`: the connection object exposes its
`close()` method; a bound method object has no `close` attribute, so the
lookup raises AttributeError (modelled as `none`). -/
def getCloseAttr : ConnVal → Option ConnVal
  | .connObj => some .boundClose
  | .boundClose => none

/-- Embeds `cleanup_connection` (admin.py lines 33-34): it evaluates
`connection.close()` on its argument — an attribute lookup of `.close`
followed by a call. Calling the bound close method closes the connection;
a failed lookup surfaces as an AttributeError. -/
def cleanup_connection (connection : ConnVal) : Except String TraceEvent :=
  match getCloseAttr connection with
  | some _ => .ok .connClosed
  | none => .error "AttributeError"

/-- Outcome of the permission gate in the wrapper: the wrapped view's
response is served, or the request is rejected with
`HttpResponseForbidden`. -/
inductive WrapOutcome where
  | forbidden (msg : String)
  | served
deriving DecidableEq, Repr

/-- Inputs to one wrapped request: the two permission bits tested on
line 114, and whether the wrapped view returned a `TemplateResponse`
(deferred rendering) rather than an eagerly rendered response. (Both views
registered by `get_urls` use `django.shortcuts.render`, which renders
eagerly, so `deferredResponse` is `false` for this module's own views;
the wrapper itself handles either kind.) -/
structure WrapperInput where
  hasViewPermission : Bool
  canInspect : Bool
  deferredResponse : Bool
deriving DecidableEq, Repr

/-- Embeds the `wrapper` closure of `RedisServerAdmin.get_urls`
(admin.py lines 112-124) together with the response-production phase that
follows it, as the outcome plus the ordered trace of events.

Denied requests return `HttpResponseForbidden` before any connection is
obtained or any view body runs (empty trace). Granted requests open the
connection, run the view; for a deferred response the wrapper registers
`partial(cleanup_connection, connection=connection.close)` — the argument
bound for the callback is the value of the attribute access
`connection.close`, the bound method — then the `finally` block closes the
connection, the template renders, and the registered callback runs on that
bound-method argument. For an eager response the body was produced inside
the view and the `finally` block then closes the connection. -/
def wrapper (inp : WrapperInput) : WrapOutcome × List TraceEvent :=
  if inp.hasViewPermission && inp.canInspect then
    if inp.deferredResponse then
      (.served,
        [.connOpened, .viewRun, .callbackRegistered, .connClosed, .bodyRendered] ++
          match cleanup_connection ((getCloseAttr .connObj).getD .connObj) with
          | .ok e => [e]
          | .error msg => [.cleanupFailed msg])
    else
      (.served, [.connOpened, .viewRun, .bodyRendered, .connClosed])
  else
    (.forbidden "You can\x27t inspect this server.", [])

/-- A concrete empty scan page, used to instantiate the external scanner in
closed instances of the theorems below. -/
def emptyPage : ScanPage :=
  { keys := [], next_cursor := 0, count := 0 }

/-- A concrete stand-in for `server.display.scan` returning the empty page,
used to instantiate the external scanner in closed instances of the
theorems below. -/
def constScanFn : Nat → Nat → List (String × String) → ScanPage :=
  fun _ _ _ => emptyPage

/-- A concrete stand-in for `server.display.value` returning a page of
count 12, used to instantiate the theorems below at closed inputs. -/
def valuePage12 : Nat → List Nat → Nat → Nat → ScanPage :=
  fun _ _ _ _ => { keys := [], next_cursor := 0, count := 12 }

/-! Theorems. -/

/-- Characterization of the `databases` context entry of `inspect` when
stats are available: an explicit db yields the single summary for that id
(key count looked up, defaulting to 0) with its scan page attached; with no
explicit db, a total below the threshold attaches a scan page to every
summary, and otherwise every summary keeps the defaults. -/
theorem inspect_databases_eq (t cursor : Nat)
    (scanFn : Nat → Nat → List (String × String) → ScanPage)
    (GET : List (String × String)) (sdbs : List (Nat × Nat)) (db : Option Nat) :
    (inspect t scanFn (some sdbs) db cursor GET).databases =
      match db with
      | some d =>
        [{ id := d, keys := (dbLookup sdbs d).getD 0,
           scan := .page (scanFn d cursor GET), cursor := some cursor }]
      | none =>
        if totalKeys sdbs < t then
          sdbs.map (fun it =>
            { id := it.1, keys := it.2,
              scan := .page (scanFn it.1 cursor GET), cursor := some cursor })
        else
          sdbs.map (fun it => { id := it.1, keys := it.2 }) := by
  cases db with
  | some d =>
    cases h : dbLookup sdbs d <;> simp [inspect, h, ScanField.isTruthy]
  | none =>
    by_cases h : totalKeys sdbs < t <;>
      simp [inspect, h, List.map_map, Function.comp, ScanField.isTruthy]

/-- C1: with no explicit database selected, the selector compares only the
total key count (the sum over all databases) to the threshold: every
returned summary is scan-enabled exactly when the total is strictly below
the threshold, and two key-count maps with equal totals yield the same
scan decision regardless of how keys are distributed. -/
theorem inspect_total_decides_scan (t cursor : Nat)
    (scanFn : Nat → Nat → List (String × String) → ScanPage)
    (GET : List (String × String)) (sdbs sdbs2 : List (Nat × Nat)) :
    (∀ d ∈ (inspect t scanFn (some sdbs) none cursor GET).databases,
      d.scan.isTruthy = decide (totalKeys sdbs < t))
    ∧ (totalKeys sdbs = totalKeys sdbs2 →
      ∀ d1 ∈ (inspect t scanFn (some sdbs) none cursor GET).databases,
      ∀ d2 ∈ (inspect t scanFn (some sdbs2) none cursor GET).databases,
      d1.scan.isTruthy = d2.scan.isTruthy) := by
  have key : ∀ s : List (Nat × Nat),
      ∀ d ∈ (inspect t scanFn (some s) none cursor GET).databases,
        d.scan.isTruthy = decide (totalKeys s < t) := by
    intro s d hd
    rw [inspect_databases_eq] at hd
    by_cases h : totalKeys s < t <;>
      simp only [h, if_pos, if_neg, not_false_iff, List.mem_map] at hd <;>
      obtain ⟨it, hit, rfl⟩ := hd <;>
      simp [ScanField.isTruthy, h]
  refine ⟨key sdbs, fun htot d1 h1 d2 h2 => ?_⟩
  rw [key sdbs d1 h1, key sdbs2 d2 h2, htot]

/-- Witness for C1 on the spec scenario `{0: 50, 1: 30}`, `threshold = 100`:
the first summary is a member of the result and its scan decision is the
total comparison `80 < 100` (true). -/
theorem inspect_total_decides_scan_witness :
    (DBInfo.mk 0 50 (.page emptyPage) (some 0)) ∈
        (inspect 100 constScanFn (some [(0, 50), (1, 30)]) none 0 []).databases
    ∧ (DBInfo.mk 0 50 (.page emptyPage) (some 0)).scan.isTruthy
        = decide (totalKeys [(0, 50), (1, 30)] < 100) := by
  refine ⟨by decide, ?_⟩
  exact (inspect_total_decides_scan 100 0 constScanFn []
    [(0, 50), (1, 30)] [(2, 80)]).1 _ (by decide)

/-- C2: with an explicitly selected database id, `inspect` returns exactly
one summary, for that id, scan-enabled regardless of its key count and of
the threshold; an id absent from the key-count map gets a synthesized
summary with key count 0, and the view still renders normally (the
function is total and this is the same rendered-context result as for a
known id, not an error). -/
theorem inspect_explicit_db (t cursor d : Nat)
    (scanFn : Nat → Nat → List (String × String) → ScanPage)
    (GET : List (String × String)) (sdbs : List (Nat × Nat)) :
    (inspect t scanFn (some sdbs) (some d) cursor GET).databases =
      [{ id := d, keys := (dbLookup sdbs d).getD 0,
         scan := .page (scanFn d cursor GET), cursor := some cursor }]
    ∧ ((inspect t scanFn (some sdbs) (some d) cursor GET).databases.map
        (fun s => s.scan.isTruthy)) = [true]
    ∧ (dbLookup sdbs d = none →
      (inspect t scanFn (some sdbs) (some d) cursor GET).databases.map
        (fun s => s.keys) = [0]) := by
  refine ⟨inspect_databases_eq t cursor scanFn GET sdbs (some d), ?_, ?_⟩
  · rw [inspect_databases_eq]
    simp [ScanField.isTruthy]
  · intro h
    rw [inspect_databases_eq]
    simp [h]

/-- Witness for C2 on the spec scenario `{0: 10}`, `explicitDb = 5`: the id
5 has no entry, so the single synthesized summary has key count 0. -/
theorem inspect_explicit_db_witness :
    dbLookup [(0, 10)] 5 = none
    ∧ (inspect 100 constScanFn (some [(0, 10)]) (some 5) 0 []).databases.map
        (fun s => s.keys) = [0] :=
  ⟨by decide, (inspect_explicit_db 100 0 5 constScanFn [] [(0, 10)]).2.2 (by decide)⟩

/-- C5: every scan-enabled summary returned by `inspect` carries the page
produced by one invocation of the external scanner on that summary's
database id, with the caller-supplied cursor and the query-string dict
forwarded verbatim, and records that cursor. -/
theorem inspect_scan_call (t cursor : Nat)
    (scanFn : Nat → Nat → List (String × String) → ScanPage)
    (GET : List (String × String)) (stats : Option (List (Nat × Nat)))
    (db : Option Nat) :
    ∀ s ∈ (inspect t scanFn stats db cursor GET).databases,
      s.scan.isTruthy = true →
      s.scan = .page (scanFn s.id cursor GET) ∧ s.cursor = some cursor := by
  intro s hs htr
  cases stats with
  | none =>
    simp [inspect] at hs
  | some sdbs =>
    rw [inspect_databases_eq] at hs
    cases db with
    | some d =>
      simp only [List.mem_singleton] at hs
      subst hs
      simp
    | none =>
      by_cases h : totalKeys sdbs < t <;>
        simp only [h, if_pos, if_neg, not_false_iff, List.mem_map] at hs <;>
        obtain ⟨it, hit, rfl⟩ := hs
      · simp
      · simp [ScanField.isTruthy] at htr

/-- Witness for C5: on `{0: 50, 1: 30}` with threshold 100, cursor 7 and a
filter dict, the first summary is scan-enabled and carries the scanner's
page for id 0, cursor 7 and the forwarded filters. -/
theorem inspect_scan_call_witness :
    ((DBInfo.mk 0 50 (.page (constScanFn 0 7 [("pattern", "a*")])) (some 7)) ∈
        (inspect 100 constScanFn (some [(0, 50), (1, 30)]) none 7
          [("pattern", "a*")]).databases
      ∧ (DBInfo.mk 0 50 (.page (constScanFn 0 7 [("pattern", "a*")]))
          (some 7)).scan.isTruthy = true)
    ∧ (DBInfo.mk 0 50 (.page (constScanFn 0 7 [("pattern", "a*")]))
          (some 7)).scan = .page (constScanFn 0 7 [("pattern", "a*")])
      ∧ (DBInfo.mk 0 50 (.page (constScanFn 0 7 [("pattern", "a*")]))
          (some 7)).cursor = some 7 := by
  refine ⟨⟨by decide, by decide⟩, ?_⟩
  exact inspect_scan_call 100 7 constScanFn [("pattern", "a*")]
    (some [(0, 50), (1, 30)]) none _ (by decide) (by decide)

/-- C7: when the server's stats are unavailable (falsy), `inspect` still
renders a page: the context has an empty database list, no active
database, and no scan is performed (the result does not depend on the
scanner at all). -/
theorem inspect_no_stats (t cursor : Nat)
    (scanFn : Nat → Nat → List (String × String) → ScanPage)
    (GET : List (String × String)) (db : Option Nat) :
    inspect t scanFn none db cursor GET =
      { databases := [], active := none, stats := none } :=
  rfl

/-- C10: with no explicit database and a total at or above the threshold,
every returned summary keeps the constructed defaults — scan disabled,
no scan page, cursor unset — and is populated only from the key-count
map's id and count; the scanner never contributes to the result (the
right-hand side does not mention the scanner). -/
theorem inspect_disabled_frame (t cursor : Nat)
    (scanFn : Nat → Nat → List (String × String) → ScanPage)
    (GET : List (String × String)) (sdbs : List (Nat × Nat))
    (h : t ≤ totalKeys sdbs) :
    (inspect t scanFn (some sdbs) none cursor GET).databases =
      sdbs.map (fun it => { id := it.1, keys := it.2 })
    ∧ ∀ s ∈ (inspect t scanFn (some sdbs) none cursor GET).databases,
        s.scan = .off ∧ s.cursor = none := by
  have he : (inspect t scanFn (some sdbs) none cursor GET).databases =
      sdbs.map (fun it => { id := it.1, keys := it.2 }) := by
    rw [inspect_databases_eq]
    simp [Nat.not_lt.mpr h]
  refine ⟨he, fun s hs => ?_⟩
  rw [he] at hs
  simp only [List.mem_map] at hs
  obtain ⟨it, hit, rfl⟩ := hs
  exact ⟨rfl, rfl⟩

/-- Witness for C10 on the spec scenario `{0: 500, 1: 700}`, threshold 100:
the total 1200 is at or above the threshold and both summaries keep scan
disabled and cursor unset. -/
theorem inspect_disabled_frame_witness :
    100 ≤ totalKeys [(0, 500), (1, 700)]
    ∧ (inspect 100 constScanFn (some [(0, 500), (1, 700)]) none 0 []).databases =
        [(0, 500), (1, 700)].map (fun it => { id := it.1, keys := it.2 }) :=
  ⟨by decide,
    (inspect_disabled_frame 100 0 constScanFn [] [(0, 500), (1, 700)] (by decide)).1⟩

/-- C3: when the existence check performed immediately before fetching
fails, `inspect_key` returns the not-found response and produces no key
detail (no stats, value page or context are computed). -/
theorem inspect_key_not_found (α : Type) (existsFn : List Nat → Bool)
    (keysFn : Nat → List (List Nat) → α)
    (valueFn : Nat → List Nat → Nat → Nat → ScanPage)
    (decodeKey : List Nat → String) (db : Nat) (key : List Nat)
    (cursor count : Nat) (h : existsFn key = false) :
    inspect_key α existsFn keysFn valueFn decodeKey db key cursor count =
      .notFound "Key is gone." := by
  simp [inspect_key, h]

/-- Witness for C3 on the spec scenario: the key `"missing"` (as bytes)
does not exist at fetch time, so the view returns the not-found
response. -/
theorem inspect_key_not_found_witness :
    (fun _ : List Nat => false) [109, 105, 115, 115, 105, 110, 103] = false
    ∧ inspect_key Nat (fun _ => false) (fun _ _ => 0) (fun _ _ _ _ => emptyPage)
        (fun _ => "") 0 [109, 105, 115, 115, 105, 110, 103] 0 0 =
      .notFound "Key is gone." :=
  ⟨rfl,
    inspect_key_not_found Nat (fun _ => false) (fun _ _ => 0)
      (fun _ _ _ _ => emptyPage) (fun _ => "") 0
      [109, 105, 115, 115, 105, 110, 103] 0 0 rfl⟩

/-- C9: on a successful key-detail request the `'count'` entry of the
rendered context is the `count` field of the value page returned by the
scan plus the caller-supplied count route parameter, not the page's count
alone. -/
theorem inspect_key_count_sum (α : Type) (existsFn : List Nat → Bool)
    (keysFn : Nat → List (List Nat) → α)
    (valueFn : Nat → List Nat → Nat → Nat → ScanPage)
    (decodeKey : List Nat → String) (db : Nat) (key : List Nat)
    (cursor count : Nat) (h : existsFn key = true) :
    ∀ ctx, inspect_key α existsFn keysFn valueFn decodeKey db key cursor count =
        .rendered ctx →
      ctx.count = (valueFn db key cursor count).count + count := by
  intro ctx hctx
  simp only [inspect_key, h, Bool.not_true, Bool.false_eq_true, if_false,
    KeyResult.rendered.injEq] at hctx
  subst hctx
  rfl

/-- Witness for C9: with a value page of count 12 and route parameter
count 5, the context's count entry is 17. -/
theorem inspect_key_count_sum_witness :
    (fun _ : List Nat => true) [97] = true
    ∧ inspect_key Nat (fun _ => true) (fun _ _ => 0) valuePage12
        (fun _ => "a") 0 [97] 3 5 =
      .rendered { stats := 0, key := "a", count := 17,
                  scan := { keys := [], next_cursor := 0, count := 12 },
                  dbId := 0, dbCursor := 3 }
    ∧ (17 : Nat) = (valuePage12 0 [97] 3 5).count + 5 :=
  ⟨rfl, rfl,
    inspect_key_count_sum Nat (fun _ => true) (fun _ _ => 0) valuePage12
      (fun _ => "a") 0 [97] 3 5 rfl _ rfl⟩

/-- C4: when the permission gate denies an inspection request, the wrapper
returns the forbidden response and the event trace is empty: the wrapped
view is not executed, no connection to the store is opened, and no data is
produced. -/
theorem wrapper_denied (inp : WrapperInput)
    (h : inp.hasViewPermission = false ∨ inp.canInspect = false) :
    wrapper inp = (.forbidden "You can\x27t inspect this server.", []) := by
  obtain h | h := h <;> simp [wrapper, h]

/-- Witness for C4: a user with the model-level view permission but
without `redisboard.can_inspect` gets the forbidden response and an empty
trace. -/
theorem wrapper_denied_witness :
    ((WrapperInput.mk true false false).hasViewPermission = false
      ∨ (WrapperInput.mk true false false).canInspect = false)
    ∧ wrapper (WrapperInput.mk true false false) =
        (.forbidden "You can\x27t inspect this server.", []) :=
  ⟨Or.inr rfl, wrapper_denied (WrapperInput.mk true false false) (Or.inr rfl)⟩

/-- C8: the wrapper serves an inspection request exactly when the user
both has the model-level view permission for the server and holds the
`redisboard.can_inspect` permission; failing either check yields the
forbidden response. The gate is the conjunction of two distinct
checks. -/
theorem wrapper_gate_conjunction (inp : WrapperInput) :
    ((wrapper inp).1 = .served ↔
      inp.hasViewPermission = true ∧ inp.canInspect = true)
    ∧ (¬(inp.hasViewPermission = true ∧ inp.canInspect = true) →
      (wrapper inp).1 = .forbidden "You can\x27t inspect this server.") := by
  by_cases h1 : inp.hasViewPermission <;> by_cases h2 : inp.canInspect <;>
    by_cases h3 : inp.deferredResponse <;> simp [wrapper, h1, h2, h3]

/-- Witness for C8: both permissions held serves the request; the
can-inspect permission alone missing forbids it. -/
theorem wrapper_gate_conjunction_witness :
    ((wrapper (WrapperInput.mk true true false)).1 = .served ↔
      (WrapperInput.mk true true false).hasViewPermission = true
        ∧ (WrapperInput.mk true true false).canInspect = true)
    ∧ (¬((WrapperInput.mk false true false).hasViewPermission = true
          ∧ (WrapperInput.mk false true false).canInspect = true)
      ∧ (wrapper (WrapperInput.mk false true false)).1 =
          .forbidden "You can\x27t inspect this server.") :=
  ⟨(wrapper_gate_conjunction (WrapperInput.mk true true false)).1,
    ⟨by decide,
      (wrapper_gate_conjunction (WrapperInput.mk false true false)).2 (by decide)⟩⟩

/-- C6, evaluated at the failing input: for a granted request whose view
returns a deferred (template) response, the trace shows the connection
closed by the `finally` block before the body is rendered, and after
rendering the registered cleanup fails with an AttributeError — because
line 119 binds `connection=connection.close` (the bound method) while
`cleanup_connection` calls `.close()` on its argument — so no close
happens after the response is fully produced, contradicting the claim
that the connection is closed only once the response has been fully
produced and, for deferred rendering, only after rendering completes. -/
theorem wrapper_deferred_close_bug :
    wrapper (WrapperInput.mk true true true) =
      (.served,
        [.connOpened, .viewRun, .callbackRegistered, .connClosed, .bodyRendered,
          .cleanupFailed "AttributeError"]) :=
  rfl

end Redisboard
